import Mathlib

/-!
Shallow embedding of the Lumina fraud-scoring core:
the in-memory multi-indexed transaction store (Go package `store`) and
the stateless scoring engine (Go package `scoring`).

Modelling conventions:
* `time.Time` is modelled as `Int` (seconds); `time.Duration` constants use
  seconds (`time.Hour` = 3600, …).  `t.Before(u)` is `t < u`, `t.After(u)`
  is `u < t`.
* `float64` amounts are modelled as `ℚ`.
* Go maps used only for keyed lookup (the secondary indexes and the
  per-IP card-BIN set) are modelled as total functions `String → List String`
  with `[]` as the default value, mirroring Go's zero-value semantics.
* Go maps that the code iterates over (the primary transaction table, the
  blocklist, the webhooks) are modelled as lists in insertion order — a
  determinization of Go's unspecified map iteration order.
* Numeric formatting inside human-readable descriptions (`fmt.Sprintf`
  verbs like `%.2f`) is abstracted by `toString`/`ratStr`; no claim depends
  on description text.
-/

/-- A rational rendered as "num/den"; stands in for Go float formatting. -/
def ratStr (q : ℚ) : String := toString q.num ++ "/" ++ toString q.den

-- ─── Domain constants (internal/domain) ─────────────────────────────────────

def RiskLow : String := "low"
def RiskMedium : String := "medium"
def RiskHigh : String := "high"

def ActionApprove : String := "approve"
def ActionReview : String := "review"
def ActionDecline : String := "decline"

def EntityEmail : String := "email"
def EntityIP : String := "ip"
def EntityBIN : String := "bin"
def EntityDevice : String := "device"

def ListBlock : String := "block"
def ListAllow : String := "allow"

def ThresholdApprove : Int := 30
def ThresholdReview : Int := 70

-- ─── Domain types (internal/domain) ─────────────────────────────────────────

/-- Go struct `domain.TransactionRequest`. -/
structure TransactionRequest where
  TransactionID : String
  Timestamp : Int
  Amount : ℚ
  Currency : String
  UserEmail : String
  IPAddress : String
  IPCountry : String
  CardBIN : String
  CardCountry : String
  DeviceFingerprint : String
  AccountCreatedAt : Int
  MerchantCountry : String
deriving DecidableEq

/-- Go struct `domain.RiskFactor`. -/
structure RiskFactor where
  Name : String
  Description : String
  ScoreDelta : Int
deriving DecidableEq

/-- Go struct `domain.Transaction` (embeds `TransactionRequest`). -/
structure Transaction extends TransactionRequest where
  RiskScore : Int
  RiskLevel : String
  Recommendation : String
  Factors : List RiskFactor
  Explanation : String
  ProcessedAt : Int
deriving DecidableEq

/-- Go struct `domain.BlocklistEntry`.  Go field `Type` is renamed
`EntityType` because `Type` is a Lean keyword. -/
structure BlocklistEntry where
  ID : String
  EntityType : String
  Value : String
  ListType : String
  Reason : String
  CreatedAt : Int
  ExpiresAt : Option Int
deriving DecidableEq

/-- Go struct `domain.WebhookConfig`. -/
structure WebhookConfig where
  ID : String
  URL : String
  Threshold : Int
  CreatedAt : Int
  Active : Bool
deriving DecidableEq

-- ─── Store (internal/store) ─────────────────────────────────────────────────

/-- Go sentinel error `store.ErrDuplicateTransaction`. -/
inductive StoreError where
  | ErrDuplicateTransaction
deriving DecidableEq

/-- Go struct `store.Store`.  The `sync.RWMutex` is dropped: every operation
holds the lock for its whole body, so each operation is one atomic step. -/
structure Store where
  transactions : List Transaction
  blocklist : List BlocklistEntry
  webhooks : List WebhookConfig
  txByEmail : String → List String
  txByIP : String → List String
  txByDevice : String → List String
  txByBIN : String → List String
  cardsByIP : String → List String

/-- Go `store.New`. -/
def Store.New : Store :=
  { transactions := []
    blocklist := []
    webhooks := []
    txByEmail := fun _ => []
    txByIP := fun _ => []
    txByDevice := fun _ => []
    txByBIN := fun _ => []
    cardsByIP := fun _ => [] }

/-- `m[k] = append(m[k], id)` on a Go `map[string][]string`. -/
def appendIdx (m : String → List String) (k id : String) : String → List String :=
  fun q => if q = k then m q ++ [id] else m q

/-- `m[k][v] = true` on a Go `map[string]map[string]bool` (set insert). -/
def insertCard (m : String → List String) (k v : String) : String → List String :=
  fun q => if q = k then (if v ∈ m k then m k else m k ++ [v]) else m q

/-- Go `Store.SaveTransaction`: duplicate-ID check, then the primary-table
insert plus all five index updates in one atomic step.  The pair returns the
post-state and the error, so the duplicate branch visibly returns the store
unchanged. -/
def Store.SaveTransaction (s : Store) (tx : Transaction) : Store × Option StoreError :=
  if s.transactions.any (fun t => t.TransactionID == tx.TransactionID) then
    (s, some StoreError.ErrDuplicateTransaction)
  else
    ({ s with
        transactions := s.transactions ++ [tx]
        txByEmail := appendIdx s.txByEmail tx.UserEmail tx.TransactionID
        txByIP := appendIdx s.txByIP tx.IPAddress tx.TransactionID
        txByDevice := appendIdx s.txByDevice tx.DeviceFingerprint tx.TransactionID
        txByBIN := appendIdx s.txByBIN tx.CardBIN tx.TransactionID
        cardsByIP := insertCard s.cardsByIP tx.IPAddress tx.CardBIN },
     none)

/-- Go `Store.GetTransaction`. -/
def Store.GetTransaction (s : Store) (id : String) : Option Transaction :=
  s.transactions.find? (fun t => t.TransactionID == id)

/-- Go `Store.filterByTime`: resolve ids against the primary table, keeping
records with `!tx.Timestamp.Before(since)`. -/
def Store.filterByTime (s : Store) (ids : List String) (since : Int) : List Transaction :=
  ids.filterMap (fun id =>
    match s.transactions.find? (fun t => t.TransactionID == id) with
    | some tx => if tx.Timestamp < since then none else some tx
    | none => none)

/-- Go `Store.GetTransactionsByEmail`. -/
def Store.GetTransactionsByEmail (s : Store) (email : String) (since : Int) : List Transaction :=
  s.filterByTime (s.txByEmail email) since

/-- Go `Store.GetTransactionsByIP`. -/
def Store.GetTransactionsByIP (s : Store) (ip : String) (since : Int) : List Transaction :=
  s.filterByTime (s.txByIP ip) since

/-- Go `Store.GetTransactionsByDevice`. -/
def Store.GetTransactionsByDevice (s : Store) (device : String) (since : Int) : List Transaction :=
  s.filterByTime (s.txByDevice device) since

/-- Go `Store.GetTransactionsByBIN`. -/
def Store.GetTransactionsByBIN (s : Store) (bin : String) (since : Int) : List Transaction :=
  s.filterByTime (s.txByBIN bin) since

/-- Go `Store.GetUniqueCardsByIP`: count of distinct BINs seen from an IP. -/
def Store.GetUniqueCardsByIP (s : Store) (ip : String) : Nat :=
  (s.cardsByIP ip).length

/-- Go `Store.GetAllTransactions`: full scan keeping `!tx.Timestamp.Before(since)`. -/
def Store.GetAllTransactions (s : Store) (since : Int) : List Transaction :=
  s.transactions.filter (fun tx => !decide (tx.Timestamp < since))

/-- True when the entry has an expiry strictly before `now`
(Go `entry.ExpiresAt != nil && entry.ExpiresAt.Before(now)`). -/
def entryExpired (e : BlocklistEntry) (now : Int) : Bool :=
  match e.ExpiresAt with
  | some exp => exp < now
  | none => false

/-- The loop body of Go `Store.CheckBlocklist` over the blocklist entries:
skip on type/value mismatch or expiry, return the first surviving entry. -/
def checkBlocklistList (entityType value : String) (now : Int) :
    List BlocklistEntry → Option BlocklistEntry
  | [] => none
  | e :: rest =>
    if e.EntityType = entityType ∧ e.Value = value ∧ entryExpired e now = false then
      some e
    else
      checkBlocklistList entityType value now rest

/-- Go `Store.CheckBlocklist`.  `now` stands for the `time.Now()` call. -/
def Store.CheckBlocklist (s : Store) (entityType value : String) (now : Int) :
    Option BlocklistEntry :=
  checkBlocklistList entityType value now s.blocklist

/-- Go `Store.ListBlocklistEntries`: keeps entries with no expiry or with
`entry.ExpiresAt.After(now)`. -/
def Store.ListBlocklistEntries (s : Store) (now : Int) : List BlocklistEntry :=
  s.blocklist.filter (fun e =>
    match e.ExpiresAt with
    | none => true
    | some exp => decide (now < exp))

/-- Go `Store.SaveBlocklistEntry` (map upsert keyed by ID). -/
def Store.SaveBlocklistEntry (s : Store) (entry : BlocklistEntry) : Store :=
  { s with blocklist :=
      if s.blocklist.any (fun e => e.ID == entry.ID) then
        s.blocklist.map (fun e => if e.ID == entry.ID then entry else e)
      else
        s.blocklist ++ [entry] }

/-- Go `Store.DeleteBlocklistEntry`. -/
def Store.DeleteBlocklistEntry (s : Store) (id : String) : Store × Bool :=
  ({ s with blocklist := s.blocklist.filter (fun e => !(e.ID == id)) },
   s.blocklist.any (fun e => e.ID == id))

/-- Go `Store.SaveWebhook` (map upsert keyed by ID). -/
def Store.SaveWebhook (s : Store) (wh : WebhookConfig) : Store :=
  { s with webhooks :=
      if s.webhooks.any (fun w => w.ID == wh.ID) then
        s.webhooks.map (fun w => if w.ID == wh.ID then wh else w)
      else
        s.webhooks ++ [wh] }

/-- Go `Store.DeleteWebhook`. -/
def Store.DeleteWebhook (s : Store) (id : String) : Store × Bool :=
  ({ s with webhooks := s.webhooks.filter (fun w => !(w.ID == id)) },
   s.webhooks.any (fun w => w.ID == id))

/-- Go `Store.ListActiveWebhooks`. -/
def Store.ListActiveWebhooks (s : Store) : List WebhookConfig :=
  s.webhooks.filter (fun w => w.Active)

-- ─── Store operations as a small language (for "any sequence of ops") ───────

/-- The store's mutating operations; reads do not change state. -/
inductive StoreOp where
  | saveTx (tx : Transaction)
  | saveBlocklist (entry : BlocklistEntry)
  | deleteBlocklist (id : String)
  | saveWebhook (wh : WebhookConfig)
  | deleteWebhook (id : String)

def applyOp (s : Store) : StoreOp → Store
  | .saveTx tx => (s.SaveTransaction tx).1
  | .saveBlocklist entry => s.SaveBlocklistEntry entry
  | .deleteBlocklist id => (s.DeleteBlocklistEntry id).1
  | .saveWebhook wh => s.SaveWebhook wh
  | .deleteWebhook id => (s.DeleteWebhook id).1

def applyOps (ops : List StoreOp) (s : Store) : Store :=
  ops.foldl applyOp s

-- ─── Scoring engine (internal/scoring) ──────────────────────────────────────

/-- Go `clamp`. -/
def clamp (v min max : Int) : Int :=
  if v < min then min else if v > max then max else v

/-- Go `isLATAM`. -/
def isLATAM (country : String) : Bool :=
  country ∈ ["BR", "MX", "AR", "CO", "CL", "PE", "VE", "EC", "BO", "PY", "UY", "CR", "PA"]

/-- Go `isHighRiskCountry`. -/
def isHighRiskCountry (country : String) : Bool :=
  country ∈ ["RU", "NG", "UA", "CN", "VN", "PK", "KP", "RO", "GH", "TZ"]

/-- Go `highRiskBINs` / `isHighRiskBIN`. -/
def isHighRiskBIN (bin : String) : Bool :=
  bin ∈ ["400000", "411111", "420000", "490000", "510000", "520000", "552000", "601100"]

/-- Go `prepaidBINs` / `isPrepaidBIN`. -/
def isPrepaidBIN (bin : String) : Bool :=
  bin ∈ ["472297", "483317", "491528", "523274", "535350", "544107"]

/-- Go struct `scoring.ruleContext`. -/
structure RuleContext where
  req : TransactionRequest
  emailLast24h : List Transaction
  emailLast10m : List Transaction
  ipLast1h : List Transaction
  deviceLast30m : List Transaction
  binLast1h : List Transaction
  uniqueCardsByIP : Nat
deriving DecidableEq

/-- Go `Engine.buildContext`: the five time-windowed queries plus the
distinct-BIN count, with windows in seconds. -/
def Engine.buildContext (s : Store) (req : TransactionRequest) : RuleContext :=
  { req := req
    emailLast24h := s.GetTransactionsByEmail req.UserEmail (req.Timestamp - 24 * 3600)
    emailLast10m := s.GetTransactionsByEmail req.UserEmail (req.Timestamp - 10 * 60)
    ipLast1h := s.GetTransactionsByIP req.IPAddress (req.Timestamp - 3600)
    deviceLast30m := s.GetTransactionsByDevice req.DeviceFingerprint (req.Timestamp - 30 * 60)
    binLast1h := s.GetTransactionsByBIN req.CardBIN (req.Timestamp - 3600)
    uniqueCardsByIP := s.GetUniqueCardsByIP req.IPAddress }

/-- Go `Engine.checkLists`: blocklist lookup for email, IP, BIN, device, in
that order; first hit wins. -/
def Engine.checkLists (s : Store) (req : TransactionRequest) (now : Int) :
    Option BlocklistEntry :=
  match s.CheckBlocklist EntityEmail req.UserEmail now with
  | some entry => some entry
  | none =>
  match s.CheckBlocklist EntityIP req.IPAddress now with
  | some entry => some entry
  | none =>
  match s.CheckBlocklist EntityBIN req.CardBIN now with
  | some entry => some entry
  | none => s.CheckBlocklist EntityDevice req.DeviceFingerprint now

/-- Go `ruleVelocityEmail`. -/
def ruleVelocityEmail (ctx : RuleContext) : List RiskFactor :=
  (if ctx.emailLast24h.length ≥ 2 then
    [{ Name := "email_velocity_24h"
       Description := "Email used in " ++ toString ctx.emailLast24h.length ++
         " transactions in the last 24 hours"
       ScoreDelta := clamp (5 * (ctx.emailLast24h.length : Int)) 0 25 }]
  else []) ++
  (if ctx.emailLast10m.length ≥ 2 then
    [{ Name := "email_velocity_10min"
       Description := "Email used in " ++ toString ctx.emailLast10m.length ++
         " transactions in the last 10 minutes"
       ScoreDelta := clamp (10 * (ctx.emailLast10m.length : Int)) 0 30 }]
  else [])

/-- Go `ruleVelocityIP`. -/
def ruleVelocityIP (ctx : RuleContext) : List RiskFactor :=
  if ctx.ipLast1h.length ≥ 3 then
    [{ Name := "ip_velocity_1h"
       Description := "IP address used in " ++ toString ctx.ipLast1h.length ++
         " transactions in the last hour"
       ScoreDelta := clamp (8 * (ctx.ipLast1h.length : Int)) 0 30 }]
  else []

/-- Go `ruleVelocityDevice`. -/
def ruleVelocityDevice (ctx : RuleContext) : List RiskFactor :=
  if ctx.deviceLast30m.length ≥ 2 then
    [{ Name := "device_velocity_30min"
       Description := "Device fingerprint used in " ++ toString ctx.deviceLast30m.length ++
         " transactions in the last 30 minutes"
       ScoreDelta := clamp (12 * (ctx.deviceLast30m.length : Int)) 0 30 }]
  else []

/-- The distinct counterparty emails appearing in a history slice
(Go builds a `map[string]bool` of emails). -/
def distinctEmails (txs : List Transaction) : List String :=
  (txs.map (fun tx => tx.UserEmail)).dedup

/-- Go `ruleVelocityCardCycling`. -/
def ruleVelocityCardCycling (ctx : RuleContext) : List RiskFactor :=
  (if ctx.uniqueCardsByIP ≥ 3 then
    [{ Name := "card_cycling_ip"
       Description := "IP address has used " ++ toString ctx.uniqueCardsByIP ++
         " different card BINs (possible card cycling)"
       ScoreDelta := clamp (8 * (ctx.uniqueCardsByIP : Int)) 0 30 }]
  else []) ++
  (if ctx.binLast1h.length ≥ 5 ∧ (distinctEmails ctx.binLast1h).length > 1 then
    [{ Name := "bin_velocity_multi_user"
       Description := "Card BIN used by " ++ toString (distinctEmails ctx.binLast1h).length ++
         " different accounts in the last hour"
       ScoreDelta := clamp (8 * ((distinctEmails ctx.binLast1h).length : Int)) 0 25 }]
  else [])

/-- Go `strings.ToUpper`, modelled character-wise so it reduces
definitionally (country codes are ASCII). -/
def strUpper (s : String) : String := String.mk (s.data.map Char.toUpper)

/-- Go `ruleGeography`. -/
def ruleGeography (ctx : RuleContext) : List RiskFactor :=
  (if strUpper ctx.req.IPCountry ≠ "" ∧ strUpper ctx.req.CardCountry ≠ "" ∧
      strUpper ctx.req.IPCountry ≠ strUpper ctx.req.CardCountry then
    [{ Name := "geo_ip_card_mismatch"
       Description := "IP country (" ++ strUpper ctx.req.IPCountry ++
         ") does not match card issuing country (" ++ strUpper ctx.req.CardCountry ++ ")"
       ScoreDelta := 25 }]
  else []) ++
  (if strUpper ctx.req.IPCountry ≠ "" ∧ strUpper ctx.req.MerchantCountry ≠ "" ∧
      strUpper ctx.req.IPCountry ≠ strUpper ctx.req.MerchantCountry ∧
      isLATAM (strUpper ctx.req.IPCountry) = false then
    [{ Name := "geo_ip_merchant_mismatch"
       Description := "IP country (" ++ strUpper ctx.req.IPCountry ++
         ") does not match merchant country (" ++ strUpper ctx.req.MerchantCountry ++ ")"
       ScoreDelta := 10 }]
  else []) ++
  (if isHighRiskCountry (strUpper ctx.req.IPCountry) then
    [{ Name := "geo_high_risk_country"
       Description := "Transaction originated from high-risk country (" ++
         strUpper ctx.req.IPCountry ++ ")"
       ScoreDelta := 15 }]
  else []) ++
  (if strUpper ctx.req.IPCountry ≠ "" ∧ strUpper ctx.req.CardCountry ≠ "" ∧
      strUpper ctx.req.MerchantCountry ≠ "" ∧
      strUpper ctx.req.IPCountry ≠ strUpper ctx.req.CardCountry ∧
      strUpper ctx.req.CardCountry ≠ strUpper ctx.req.MerchantCountry ∧
      strUpper ctx.req.IPCountry ≠ strUpper ctx.req.MerchantCountry then
    [{ Name := "geo_three_way_mismatch"
       Description := "IP country, card country, and merchant country are all different"
       ScoreDelta := 10 }]
  else [])

/-- Go `ruleAccountAge` (durations in seconds). -/
def ruleAccountAge (ctx : RuleContext) : List RiskFactor :=
  if ctx.req.Timestamp - ctx.req.AccountCreatedAt < 3600 then
    [{ Name := "account_age_critical"
       Description := "Account created " ++
         toString ((ctx.req.Timestamp - ctx.req.AccountCreatedAt) / 60) ++
         " minutes ago (very new)"
       ScoreDelta := 25 }]
  else if ctx.req.Timestamp - ctx.req.AccountCreatedAt < 24 * 3600 then
    [{ Name := "account_age_new"
       Description := "Account created " ++
         toString ((ctx.req.Timestamp - ctx.req.AccountCreatedAt) / 3600) ++ " hours ago"
       ScoreDelta := 15 }]
  else if ctx.req.Timestamp - ctx.req.AccountCreatedAt < 7 * 24 * 3600 then
    [{ Name := "account_age_week"
       Description := "Account created " ++
         toString ((ctx.req.Timestamp - ctx.req.AccountCreatedAt) / (24 * 3600)) ++ " days ago"
       ScoreDelta := 5 }]
  else []

/-- The 24h-window mean amount (Go: `total / float64(len(history))`). -/
def avgAmount (history : List Transaction) : ℚ :=
  (history.foldl (fun acc tx => acc + tx.Amount) 0) / (history.length : ℚ)

/-- Go `rulePurchaseBehaviour`. -/
def rulePurchaseBehaviour (ctx : RuleContext) : List RiskFactor :=
  if ctx.emailLast24h.isEmpty then
    if ctx.req.Amount > 50 then
      [{ Name := "first_transaction"
         Description := "First transaction with a high amount ($" ++ ratStr ctx.req.Amount ++ ")"
         ScoreDelta := 15 }]
    else
      [{ Name := "first_transaction"
         Description := "First transaction recorded for this email address"
         ScoreDelta := 5 }]
  else
    if avgAmount ctx.emailLast24h > 0 then
      if ctx.req.Amount / avgAmount ctx.emailLast24h ≥ 10 then
        [{ Name := "amount_anomaly_extreme"
           Description := "Amount is " ++ ratStr (ctx.req.Amount / avgAmount ctx.emailLast24h) ++
             "x the users 24h average ($" ++ ratStr (avgAmount ctx.emailLast24h) ++ " avg)"
           ScoreDelta := 30 }]
      else if ctx.req.Amount / avgAmount ctx.emailLast24h ≥ 5 then
        [{ Name := "amount_anomaly_high"
           Description := "Amount is " ++ ratStr (ctx.req.Amount / avgAmount ctx.emailLast24h) ++
             "x the users 24h average ($" ++ ratStr (avgAmount ctx.emailLast24h) ++ " avg)"
           ScoreDelta := 20 }]
      else if ctx.req.Amount / avgAmount ctx.emailLast24h ≥ 3 then
        [{ Name := "amount_anomaly_medium"
           Description := "Amount is " ++ ratStr (ctx.req.Amount / avgAmount ctx.emailLast24h) ++
             "x the users 24h average ($" ++ ratStr (avgAmount ctx.emailLast24h) ++ " avg)"
           ScoreDelta := 10 }]
      else []
    else []

/-- Go `ruleCardBIN`. -/
def ruleCardBIN (ctx : RuleContext) : List RiskFactor :=
  if isHighRiskBIN ctx.req.CardBIN then
    [{ Name := "bin_high_risk"
       Description := "Card BIN " ++ ctx.req.CardBIN ++ " is flagged for high fraud association"
       ScoreDelta := 30 }]
  else if isPrepaidBIN ctx.req.CardBIN then
    [{ Name := "bin_prepaid"
       Description := "Card BIN " ++ ctx.req.CardBIN ++
         " is a prepaid card (commonly used in chargebacks)"
       ScoreDelta := 15 }]
  else []

/-- The UTC hour of an epoch-seconds timestamp (Go `Timestamp.UTC().Hour()`). -/
def hourUTC (t : Int) : Int := (t / 3600) % 24

/-- Go `ruleTiming`. -/
def ruleTiming (ctx : RuleContext) : List RiskFactor :=
  if hourUTC ctx.req.Timestamp ≥ 2 ∧ hourUTC ctx.req.Timestamp < 6 then
    [{ Name := "off_hours"
       Description := "Transaction at " ++ toString (hourUTC ctx.req.Timestamp) ++
         ":00 UTC (off-hours 02:00-06:00)"
       ScoreDelta := 10 }]
  else []

/-- Go `buildExplanation`. -/
def buildExplanation (score : Int) (factors : List RiskFactor) : String :=
  if factors.isEmpty then
    "Risk Score: " ++ toString score ++ ". No significant fraud indicators detected."
  else
    "Risk Score: " ++ toString score ++ ". Factors: " ++
      String.intercalate "; "
        (factors.map (fun f =>
          if f.ScoreDelta > 0 then f.Description ++ " (+" ++ toString f.ScoreDelta ++ ")"
          else f.Description)) ++ "."

/-- The nine rules of the engine's `rules` slice, concatenated in order. -/
def allRuleFactors (ctx : RuleContext) : List RiskFactor :=
  ruleVelocityEmail ctx ++ ruleVelocityIP ctx ++ ruleVelocityDevice ctx ++
  ruleVelocityCardCycling ctx ++ ruleGeography ctx ++ ruleAccountAge ctx ++
  rulePurchaseBehaviour ctx ++ ruleCardBIN ctx ++ ruleTiming ctx

/-- The engine's factor-delta accumulation loop. -/
def sumDeltas (factors : List RiskFactor) : Int :=
  factors.foldl (fun acc f => acc + f.ScoreDelta) 0

/-- The engine's first clamp step (`if total < 0 { total = 0 }`). -/
def clampLow (total : Int) : Int := if total < 0 then 0 else total

/-- Both clamp steps of `Engine.Score`
(`if total < 0 { total = 0 }; if total > 100 { total = 100 }`). -/
def finalTotal (total : Int) : Int :=
  if clampLow total > 100 then 100 else clampLow total

/-- Phase 2 of Go `Engine.Score`: build context, run the nine rules, sum and
clamp, render the explanation. -/
def Engine.scoreRules (s : Store) (req : TransactionRequest) :
    Int × List RiskFactor × String :=
  (finalTotal (sumDeltas (allRuleFactors (Engine.buildContext s req))),
   allRuleFactors (Engine.buildContext s req),
   buildExplanation (finalTotal (sumDeltas (allRuleFactors (Engine.buildContext s req))))
     (allRuleFactors (Engine.buildContext s req)))

/-- The single blocklist-hit factor built in `Engine.Score`. -/
def blockFactor (entry : BlocklistEntry) : RiskFactor :=
  { Name := "blocklist_match"
    Description := entry.EntityType ++ " " ++ entry.Value ++
      " is on the blocklist: " ++ entry.Reason
    ScoreDelta := 100 }

/-- The single allowlist-hit factor built in `Engine.Score`. -/
def allowFactor (entry : BlocklistEntry) : RiskFactor :=
  { Name := "allowlist_match"
    Description := entry.EntityType ++ " " ++ entry.Value ++
      " is on the allowlist: " ++ entry.Reason
    ScoreDelta := 0 }

/-- Go `Engine.Score` in state-passing form.  The engine only reads the store,
so the threaded output store appears unchanged in every branch, mirroring
that the method body performs no store write.  `now` stands for the
`time.Now()` used inside the blocklist lookup.  A list entry whose ListType
is neither `block` nor `allow` falls through to rule evaluation, exactly as
the Go `switch` does. -/
def Engine.ScoreSt (s : Store) (req : TransactionRequest) (now : Int) :
    (Int × List RiskFactor × String) × Store :=
  match Engine.checkLists s req now with
  | some entry =>
    if entry.ListType = ListBlock then
      ((100, [blockFactor entry], buildExplanation 100 [blockFactor entry]), s)
    else if entry.ListType = ListAllow then
      ((0, [allowFactor entry], buildExplanation 0 [allowFactor entry]), s)
    else (Engine.scoreRules s req, s)
  | none => (Engine.scoreRules s req, s)

/-- The (score, factors, explanation) result of Go `Engine.Score`. -/
def Engine.Score (s : Store) (req : TransactionRequest) (now : Int) :
    Int × List RiskFactor × String :=
  (Engine.ScoreSt s req now).1

/-- Go `Recommend`. -/
def Recommend (score : Int) : String × String :=
  if score ≤ ThresholdApprove then (ActionApprove, RiskLow)
  else if score ≤ ThresholdReview then (ActionReview, RiskMedium)
  else (ActionDecline, RiskHigh)


/-- The record/index consistency invariant maintained by the store. -/
structure StoreInv (s : Store) : Prop where
  idsNodup : (s.transactions.map (fun t => t.TransactionID)).Nodup
  indexedEmail : ∀ tx ∈ s.transactions, tx.TransactionID ∈ s.txByEmail tx.UserEmail
  indexedIP : ∀ tx ∈ s.transactions, tx.TransactionID ∈ s.txByIP tx.IPAddress
  indexedDevice : ∀ tx ∈ s.transactions, tx.TransactionID ∈ s.txByDevice tx.DeviceFingerprint
  indexedBIN : ∀ tx ∈ s.transactions, tx.TransactionID ∈ s.txByBIN tx.CardBIN
  indexedCard : ∀ tx ∈ s.transactions, tx.CardBIN ∈ s.cardsByIP tx.IPAddress
  soundEmail : ∀ v id, id ∈ s.txByEmail v →
    ∃ tx, tx ∈ s.transactions ∧ tx.TransactionID = id ∧ tx.UserEmail = v
  soundIP : ∀ v id, id ∈ s.txByIP v →
    ∃ tx, tx ∈ s.transactions ∧ tx.TransactionID = id ∧ tx.IPAddress = v
  soundDevice : ∀ v id, id ∈ s.txByDevice v →
    ∃ tx, tx ∈ s.transactions ∧ tx.TransactionID = id ∧ tx.DeviceFingerprint = v
  soundBIN : ∀ v id, id ∈ s.txByBIN v →
    ∃ tx, tx ∈ s.transactions ∧ tx.TransactionID = id ∧ tx.CardBIN = v

/-- A transaction indexed under all four secondary indexes and the
per-origin distinct-BIN set. -/
def txIndexed (s : Store) (tx : Transaction) : Prop :=
  tx.TransactionID ∈ s.txByEmail tx.UserEmail ∧
  tx.TransactionID ∈ s.txByIP tx.IPAddress ∧
  tx.TransactionID ∈ s.txByDevice tx.DeviceFingerprint ∧
  tx.TransactionID ∈ s.txByBIN tx.CardBIN ∧
  tx.CardBIN ∈ s.cardsByIP tx.IPAddress

-- ─── Concrete sample data (used by witnesses and scenario claims) ───────────

/-- A clean low-risk request: amount 30, matching countries, unlisted BIN,
account 8 days old, 14:00 UTC, no history. -/
def sampleReq : TransactionRequest :=
  { TransactionID := "tx-100"
    Timestamp := 100 * 86400 + 14 * 3600
    Amount := 30
    Currency := "BRL"
    UserEmail := "new@example.com"
    IPAddress := "177.10.20.30"
    IPCountry := "BR"
    CardBIN := "453211"
    CardCountry := "BR"
    DeviceFingerprint := "dev-100"
    AccountCreatedAt := 100 * 86400 + 14 * 3600 - 8 * 86400
    MerchantCountry := "BR" }

/-- `sampleReq` wrapped as a stored record. -/
def sampleTx : Transaction :=
  { toTransactionRequest := sampleReq
    RiskScore := 5
    RiskLevel := "low"
    Recommendation := "approve"
    Factors := []
    Explanation := ""
    ProcessedAt := 100 * 86400 + 14 * 3600 }

/-- A store already holding `sampleTx`. -/
def dupStore : Store := (Store.New.SaveTransaction sampleTx).1

/-- A permanent block entry matching `sampleReq`'s counterparty email. -/
def blockEntry : BlocklistEntry :=
  { ID := "bl-1"
    EntityType := "email"
    Value := "new@example.com"
    ListType := "block"
    Reason := "confirmed fraud"
    CreatedAt := 0
    ExpiresAt := none }

/-- A store holding only `blockEntry`. -/
def blockStore : Store := Store.New.SaveBlocklistEntry blockEntry

/-- A block entry expiring exactly at time 1000. -/
def expiringEntry : BlocklistEntry :=
  { ID := "bl-exp"
    EntityType := "ip"
    Value := "1.2.3.4"
    ListType := "block"
    Reason := "abuse"
    CreatedAt := 0
    ExpiresAt := some 1000 }

/-- A stored record with amount 0 (gives a non-positive 24h mean). -/
def zeroAmountTx : Transaction :=
  { sampleTx with toTransactionRequest := { sampleReq with TransactionID := "tx-0", Amount := 0 } }

/-- A rule context whose 24h history has mean amount 0. -/
def zeroAvgCtx : RuleContext :=
  { req := { sampleReq with Amount := 1000000 }
    emailLast24h := [zeroAmountTx]
    emailLast10m := []
    ipLast1h := []
    deviceLast30m := []
    binLast1h := []
    uniqueCardsByIP := 0 }

/-- A rule context with an empty 24h history. -/
def emptyHistCtx : RuleContext :=
  { req := sampleReq
    emailLast24h := []
    emailLast10m := []
    ipLast1h := []
    deviceLast30m := []
    binLast1h := []
    uniqueCardsByIP := 0 }

/-- A list of store operations inserting `sampleTx`. -/
def sampleOps : List StoreOp := [StoreOp.saveTx sampleTx]

/-- A context whose request has an empty origin-country code and card country
"US": the two field values differ, yet no mismatch factor fires. -/
def geoNoCountryCtx : RuleContext :=
  { emptyHistCtx with req := { sampleReq with IPCountry := "", CardCountry := "US" } }

-- ─── Helper lemmas: factor deltas are non-negative ──────────────────────────

theorem clamp_nonneg (v hi : Int) (h : 0 ≤ hi) : 0 ≤ clamp v 0 hi := by
  unfold clamp; split_ifs <;> omega

theorem mem_ite_singleton {α : Type} {p : Prop} [Decidable p] {a x : α}
    (h : a ∈ if p then [x] else []) : a = x := by
  split at h <;> simp_all

theorem ruleVelocityEmail_delta_nonneg (ctx : RuleContext) :
    ∀ f ∈ ruleVelocityEmail ctx, 0 ≤ f.ScoreDelta := by
  intro f hf
  unfold ruleVelocityEmail at hf
  rcases List.mem_append.mp hf with h | h
  · rw [mem_ite_singleton h]; dsimp only; exact clamp_nonneg _ 25 (by norm_num)
  · rw [mem_ite_singleton h]; dsimp only; exact clamp_nonneg _ 30 (by norm_num)

theorem ruleVelocityIP_delta_nonneg (ctx : RuleContext) :
    ∀ f ∈ ruleVelocityIP ctx, 0 ≤ f.ScoreDelta := by
  intro f hf
  unfold ruleVelocityIP at hf
  rw [mem_ite_singleton hf]; dsimp only; exact clamp_nonneg _ 30 (by norm_num)

theorem ruleVelocityDevice_delta_nonneg (ctx : RuleContext) :
    ∀ f ∈ ruleVelocityDevice ctx, 0 ≤ f.ScoreDelta := by
  intro f hf
  unfold ruleVelocityDevice at hf
  rw [mem_ite_singleton hf]; dsimp only; exact clamp_nonneg _ 30 (by norm_num)

theorem ruleVelocityCardCycling_delta_nonneg (ctx : RuleContext) :
    ∀ f ∈ ruleVelocityCardCycling ctx, 0 ≤ f.ScoreDelta := by
  intro f hf
  unfold ruleVelocityCardCycling at hf
  rcases List.mem_append.mp hf with h | h
  · rw [mem_ite_singleton h]; dsimp only; exact clamp_nonneg _ 30 (by norm_num)
  · rw [mem_ite_singleton h]; dsimp only; exact clamp_nonneg _ 25 (by norm_num)

theorem ruleGeography_delta_nonneg (ctx : RuleContext) :
    ∀ f ∈ ruleGeography ctx, 0 ≤ f.ScoreDelta := by
  intro f hf
  unfold ruleGeography at hf
  rcases List.mem_append.mp hf with h | h
  · rcases List.mem_append.mp h with h | h
    · rcases List.mem_append.mp h with h | h
      · rw [mem_ite_singleton h]; dsimp only; exact (by norm_num : (0:Int) ≤ 25)
      · rw [mem_ite_singleton h]; dsimp only; exact (by norm_num : (0:Int) ≤ 10)
    · rw [mem_ite_singleton h]; dsimp only; exact (by norm_num : (0:Int) ≤ 15)
  · rw [mem_ite_singleton h]; dsimp only; exact (by norm_num : (0:Int) ≤ 10)

theorem ruleAccountAge_delta_nonneg (ctx : RuleContext) :
    ∀ f ∈ ruleAccountAge ctx, 0 ≤ f.ScoreDelta := by
  intro f hf
  unfold ruleAccountAge at hf
  split_ifs at hf
  · rw [List.mem_singleton.mp hf]; dsimp only; exact (by norm_num : (0:Int) ≤ 25)
  · rw [List.mem_singleton.mp hf]; dsimp only; exact (by norm_num : (0:Int) ≤ 15)
  · rw [List.mem_singleton.mp hf]; dsimp only; exact (by norm_num : (0:Int) ≤ 5)
  · exact absurd hf (List.not_mem_nil f)

theorem rulePurchaseBehaviour_delta_nonneg (ctx : RuleContext) :
    ∀ f ∈ rulePurchaseBehaviour ctx, 0 ≤ f.ScoreDelta := by
  intro f hf
  unfold rulePurchaseBehaviour at hf
  split_ifs at hf
  · rw [List.mem_singleton.mp hf]; dsimp only; exact (by norm_num : (0:Int) ≤ 15)
  · rw [List.mem_singleton.mp hf]; dsimp only; exact (by norm_num : (0:Int) ≤ 5)
  · rw [List.mem_singleton.mp hf]; dsimp only; exact (by norm_num : (0:Int) ≤ 30)
  · rw [List.mem_singleton.mp hf]; dsimp only; exact (by norm_num : (0:Int) ≤ 20)
  · rw [List.mem_singleton.mp hf]; dsimp only; exact (by norm_num : (0:Int) ≤ 10)
  · exact absurd hf (List.not_mem_nil f)
  · exact absurd hf (List.not_mem_nil f)

theorem ruleCardBIN_delta_nonneg (ctx : RuleContext) :
    ∀ f ∈ ruleCardBIN ctx, 0 ≤ f.ScoreDelta := by
  intro f hf
  unfold ruleCardBIN at hf
  split_ifs at hf
  · rw [List.mem_singleton.mp hf]; dsimp only; exact (by norm_num : (0:Int) ≤ 30)
  · rw [List.mem_singleton.mp hf]; dsimp only; exact (by norm_num : (0:Int) ≤ 15)
  · exact absurd hf (List.not_mem_nil f)

theorem ruleTiming_delta_nonneg (ctx : RuleContext) :
    ∀ f ∈ ruleTiming ctx, 0 ≤ f.ScoreDelta := by
  intro f hf
  unfold ruleTiming at hf
  rw [mem_ite_singleton hf]; dsimp only; exact (by norm_num : (0:Int) ≤ 10)

theorem allRuleFactors_delta_nonneg (ctx : RuleContext) :
    ∀ f ∈ allRuleFactors ctx, 0 ≤ f.ScoreDelta := by
  intro f hf
  unfold allRuleFactors at hf
  simp only [List.mem_append] at hf
  rcases hf with ((((((((h | h) | h) | h) | h) | h) | h) | h) | h)
  · exact ruleVelocityEmail_delta_nonneg ctx f h
  · exact ruleVelocityIP_delta_nonneg ctx f h
  · exact ruleVelocityDevice_delta_nonneg ctx f h
  · exact ruleVelocityCardCycling_delta_nonneg ctx f h
  · exact ruleGeography_delta_nonneg ctx f h
  · exact ruleAccountAge_delta_nonneg ctx f h
  · exact rulePurchaseBehaviour_delta_nonneg ctx f h
  · exact ruleCardBIN_delta_nonneg ctx f h
  · exact ruleTiming_delta_nonneg ctx f h

theorem finalTotal_bounds (t : Int) : 0 ≤ finalTotal t ∧ finalTotal t ≤ 100 := by
  unfold finalTotal clampLow; split_ifs <;> omega

-- ─── Helper lemmas: the store invariant ─────────────────────────────────────

theorem mem_appendIdx_self (m : String → List String) (k id : String) :
    id ∈ appendIdx m k id k := by
  unfold appendIdx; simp

theorem mem_appendIdx_of_mem (m : String → List String) (k id q a : String)
    (h : a ∈ m q) : a ∈ appendIdx m k id q := by
  unfold appendIdx; split
  · exact List.mem_append_left _ h
  · exact h

theorem mem_appendIdx_elim {m : String → List String} {k id q a : String}
    (h : a ∈ appendIdx m k id q) : a ∈ m q ∨ (q = k ∧ a = id) := by
  unfold appendIdx at h
  split at h
  · rcases List.mem_append.mp h with h | h
    · exact Or.inl h
    · exact Or.inr ⟨by assumption, List.mem_singleton.mp h⟩
  · exact Or.inl h

theorem mem_insertCard_self (m : String → List String) (k v : String) :
    v ∈ insertCard m k v k := by
  unfold insertCard
  rw [if_pos rfl]
  split
  · assumption
  · exact List.mem_append_right _ (List.mem_singleton.mpr rfl)

theorem mem_insertCard_of_mem (m : String → List String) (k v q a : String)
    (h : a ∈ m q) : a ∈ insertCard m k v q := by
  unfold insertCard; split
  · split
    · subst_vars; assumption
    · subst_vars; exact List.mem_append_left _ h
  · exact h

theorem storeInv_new : StoreInv Store.New := by
  constructor <;> simp [Store.New]

theorem storeInv_save (s : Store) (tx : Transaction) (inv : StoreInv s) :
    StoreInv (s.SaveTransaction tx).1 := by
  unfold Store.SaveTransaction
  split
  · exact inv
  · rename_i hdup
    have hfresh : ∀ t ∈ s.transactions, t.TransactionID ≠ tx.TransactionID := by
      intro t ht he
      exact hdup (List.any_eq_true.mpr ⟨t, ht, beq_iff_eq.mpr he⟩)
    constructor
    case idsNodup =>
      dsimp only
      rw [List.map_append, List.nodup_append]
      refine ⟨inv.idsNodup, List.nodup_singleton _, ?_⟩
      intro a ha hb
      rcases List.mem_map.mp ha with ⟨t, ht, rfl⟩
      rw [List.map_singleton, List.mem_singleton] at hb
      exact hfresh t ht hb
    case indexedEmail =>
      intro t ht
      rcases List.mem_append.mp ht with h | h
      · exact mem_appendIdx_of_mem _ _ _ _ _ (inv.indexedEmail t h)
      · rw [List.mem_singleton.mp h]; exact mem_appendIdx_self _ _ _
    case indexedIP =>
      intro t ht
      rcases List.mem_append.mp ht with h | h
      · exact mem_appendIdx_of_mem _ _ _ _ _ (inv.indexedIP t h)
      · rw [List.mem_singleton.mp h]; exact mem_appendIdx_self _ _ _
    case indexedDevice =>
      intro t ht
      rcases List.mem_append.mp ht with h | h
      · exact mem_appendIdx_of_mem _ _ _ _ _ (inv.indexedDevice t h)
      · rw [List.mem_singleton.mp h]; exact mem_appendIdx_self _ _ _
    case indexedBIN =>
      intro t ht
      rcases List.mem_append.mp ht with h | h
      · exact mem_appendIdx_of_mem _ _ _ _ _ (inv.indexedBIN t h)
      · rw [List.mem_singleton.mp h]; exact mem_appendIdx_self _ _ _
    case indexedCard =>
      intro t ht
      rcases List.mem_append.mp ht with h | h
      · exact mem_insertCard_of_mem _ _ _ _ _ (inv.indexedCard t h)
      · rw [List.mem_singleton.mp h]; exact mem_insertCard_self _ _ _
    case soundEmail =>
      intro v id h
      rcases mem_appendIdx_elim h with h | ⟨rfl, rfl⟩
      · rcases inv.soundEmail v id h with ⟨t, ht, hid, hv⟩
        exact ⟨t, List.mem_append_left _ ht, hid, hv⟩
      · exact ⟨tx, List.mem_append_right _ (List.mem_singleton.mpr rfl), rfl, rfl⟩
    case soundIP =>
      intro v id h
      rcases mem_appendIdx_elim h with h | ⟨rfl, rfl⟩
      · rcases inv.soundIP v id h with ⟨t, ht, hid, hv⟩
        exact ⟨t, List.mem_append_left _ ht, hid, hv⟩
      · exact ⟨tx, List.mem_append_right _ (List.mem_singleton.mpr rfl), rfl, rfl⟩
    case soundDevice =>
      intro v id h
      rcases mem_appendIdx_elim h with h | ⟨rfl, rfl⟩
      · rcases inv.soundDevice v id h with ⟨t, ht, hid, hv⟩
        exact ⟨t, List.mem_append_left _ ht, hid, hv⟩
      · exact ⟨tx, List.mem_append_right _ (List.mem_singleton.mpr rfl), rfl, rfl⟩
    case soundBIN =>
      intro v id h
      rcases mem_appendIdx_elim h with h | ⟨rfl, rfl⟩
      · rcases inv.soundBIN v id h with ⟨t, ht, hid, hv⟩
        exact ⟨t, List.mem_append_left _ ht, hid, hv⟩
      · exact ⟨tx, List.mem_append_right _ (List.mem_singleton.mpr rfl), rfl, rfl⟩

theorem storeInv_applyOp (s : Store) (op : StoreOp) (inv : StoreInv s) :
    StoreInv (applyOp s op) := by
  cases op with
  | saveTx tx => exact storeInv_save s tx inv
  | saveBlocklist entry =>
    exact ⟨inv.idsNodup, inv.indexedEmail, inv.indexedIP, inv.indexedDevice,
      inv.indexedBIN, inv.indexedCard, inv.soundEmail, inv.soundIP,
      inv.soundDevice, inv.soundBIN⟩
  | deleteBlocklist id =>
    exact ⟨inv.idsNodup, inv.indexedEmail, inv.indexedIP, inv.indexedDevice,
      inv.indexedBIN, inv.indexedCard, inv.soundEmail, inv.soundIP,
      inv.soundDevice, inv.soundBIN⟩
  | saveWebhook wh =>
    exact ⟨inv.idsNodup, inv.indexedEmail, inv.indexedIP, inv.indexedDevice,
      inv.indexedBIN, inv.indexedCard, inv.soundEmail, inv.soundIP,
      inv.soundDevice, inv.soundBIN⟩
  | deleteWebhook id =>
    exact ⟨inv.idsNodup, inv.indexedEmail, inv.indexedIP, inv.indexedDevice,
      inv.indexedBIN, inv.indexedCard, inv.soundEmail, inv.soundIP,
      inv.soundDevice, inv.soundBIN⟩

theorem storeInv_applyOps (ops : List StoreOp) :
    ∀ s : Store, StoreInv s → StoreInv (applyOps ops s) := by
  induction ops with
  | nil => intro s inv; exact inv
  | cons op rest ih =>
    intro s inv
    exact ih (applyOp s op) (storeInv_applyOp s op inv)

-- ─── Helper lemmas: time-windowed queries ───────────────────────────────────

theorem mem_filterByTime {s : Store} {ids : List String} {since : Int} {tx : Transaction} :
    tx ∈ s.filterByTime ids since ↔
      ∃ id ∈ ids, s.transactions.find? (fun t => t.TransactionID == id) = some tx ∧
        ¬ tx.Timestamp < since := by
  unfold Store.filterByTime
  rw [List.mem_filterMap]
  constructor
  · rintro ⟨id, hid, heq⟩
    refine ⟨id, hid, ?_⟩
    rcases hfind : s.transactions.find? (fun t => t.TransactionID == id) with _ | t
    · rw [hfind] at heq
      exact absurd heq (by simp)
    · rw [hfind] at heq
      dsimp only at heq
      split at heq
      · exact absurd heq (by simp)
      · rw [Option.some_inj] at heq
        subst heq
        exact ⟨hfind, by assumption⟩
  · rintro ⟨id, hid, hfind, hts⟩
    exact ⟨id, hid, by rw [hfind]; dsimp only; rw [if_neg hts]⟩

theorem find?_eq_of_mem_nodup (l : List Transaction) (tx : Transaction)
    (hnd : (l.map (fun t => t.TransactionID)).Nodup) (hmem : tx ∈ l) :
    l.find? (fun t => t.TransactionID == tx.TransactionID) = some tx := by
  induction l with
  | nil => cases hmem
  | cons a l ih =>
    rw [List.map_cons, List.nodup_cons] at hnd
    rcases List.mem_cons.mp hmem with rfl | hmem2
    · simp [List.find?]
    · have hne : (a.TransactionID == tx.TransactionID) = false := by
        rw [beq_eq_false_iff_ne]
        intro he
        exact hnd.1 (he ▸ List.mem_map_of_mem (fun t => t.TransactionID) hmem2)
      simp only [List.find?, hne]
      exact ih hnd.2 hmem2

theorem eq_of_mem_same_id {l : List Transaction} {tx ty : Transaction}
    (hnd : (l.map (fun t => t.TransactionID)).Nodup) (h1 : tx ∈ l) (h2 : ty ∈ l)
    (hid : tx.TransactionID = ty.TransactionID) : tx = ty := by
  have e1 := find?_eq_of_mem_nodup l tx hnd h1
  have e2 := find?_eq_of_mem_nodup l ty hnd h2
  rw [hid] at e1
  rw [e2] at e1
  exact (Option.some_inj.mp e1).symm

theorem mem_getAll {s : Store} {since : Int} {tx : Transaction} :
    tx ∈ s.GetAllTransactions since ↔ tx ∈ s.transactions ∧ since ≤ tx.Timestamp := by
  unfold Store.GetAllTransactions
  rw [List.mem_filter]
  simp [not_lt]

/-- Generic form of the query/queryAll agreement, over any one of the four
secondary indexes (given by its projection and its two invariant clauses). -/
theorem mem_query_iff {s : Store} (inv : StoreInv s) (idx : String → List String)
    (field : Transaction → String)
    (hidx : ∀ tx ∈ s.transactions, tx.TransactionID ∈ idx (field tx))
    (hsound : ∀ v id, id ∈ idx v →
      ∃ tx, tx ∈ s.transactions ∧ tx.TransactionID = id ∧ field tx = v)
    (v : String) (since : Int) (tx : Transaction) :
    tx ∈ s.filterByTime (idx v) since ↔
      tx ∈ s.GetAllTransactions since ∧ field tx = v ∧ since ≤ tx.Timestamp := by
  rw [mem_filterByTime, mem_getAll]
  constructor
  · rintro ⟨id, hid, hfind, hts⟩
    have hmem := List.mem_of_find?_eq_some hfind
    have hpid := List.find?_some hfind
    simp only [beq_iff_eq] at hpid
    obtain ⟨ty, hty, hyid, hyv⟩ := hsound v id hid
    have hxy : tx = ty := eq_of_mem_same_id inv.idsNodup hmem hty (by rw [hpid, hyid])
    exact ⟨⟨hmem, not_lt.mp hts⟩, by rw [hxy]; exact hyv, not_lt.mp hts⟩
  · rintro ⟨⟨hmem, hts⟩, hfield, -⟩
    refine ⟨tx.TransactionID, ?_, ?_, not_lt.mpr hts⟩
    · rw [← hfield]; exact hidx tx hmem
    · exact find?_eq_of_mem_nodup _ tx inv.idsNodup hmem

-- ─── Claim theorems ─────────────────────────────────────────────────────────

theorem scoreRules_result_ok (s : Store) (req : TransactionRequest) :
    0 ≤ (Engine.scoreRules s req).1 ∧ (Engine.scoreRules s req).1 ≤ 100 ∧
    ∀ f ∈ (Engine.scoreRules s req).2.1, 0 ≤ f.ScoreDelta := by
  unfold Engine.scoreRules
  dsimp only
  exact ⟨(finalTotal_bounds _).1, (finalTotal_bounds _).2, allRuleFactors_delta_nonneg _⟩

/-- C1: For every transaction request, store state, and wall-clock time,
`Engine.Score` returns a final score in [0, 100], and every risk factor it
returns carries a non-negative point delta; the unclamped delta sum may
exceed 100 but the reported score never does. -/
theorem score_in_range_and_deltas_nonneg :
    ∀ (s : Store) (req : TransactionRequest) (now : Int),
      0 ≤ (Engine.Score s req now).1 ∧ (Engine.Score s req now).1 ≤ 100 ∧
      ∀ f ∈ (Engine.Score s req now).2.1, 0 ≤ f.ScoreDelta := by
  intro s req now
  unfold Engine.Score Engine.ScoreSt
  rcases h : Engine.checkLists s req now with _ | entry
  · dsimp only
    exact scoreRules_result_ok s req
  · dsimp only
    split_ifs
    · refine ⟨by norm_num, by norm_num, ?_⟩
      intro f hf
      rw [List.mem_singleton.mp hf]
      unfold blockFactor
      dsimp only
      norm_num
    · refine ⟨le_refl 0, by norm_num, ?_⟩
      intro f hf
      rw [List.mem_singleton.mp hf]
      unfold allowFactor
      dsimp only
      norm_num
    · exact scoreRules_result_ok s req

/-- C1 witness: concrete instantiation on `sampleReq` over the empty store,
discharging the factor-membership hypothesis at the factor the engine
actually emits. -/
theorem score_in_range_and_deltas_nonneg_witness :
    0 ≤ (Engine.Score Store.New sampleReq 0).1 ∧
    (Engine.Score Store.New sampleReq 0).1 ≤ 100 ∧
    0 ≤ (RiskFactor.mk "first_transaction"
      "First transaction recorded for this email address" 5).ScoreDelta :=
  ⟨(score_in_range_and_deltas_nonneg Store.New sampleReq 0).1,
   (score_in_range_and_deltas_nonneg Store.New sampleReq 0).2.1,
   (score_in_range_and_deltas_nonneg Store.New sampleReq 0).2.2
     (RiskFactor.mk "first_transaction"
       "First transaction recorded for this email address" 5) (by decide)⟩

/-- C5: Scoring never mutates the store: in state-passing form the store
that `Engine.ScoreSt` threads out is the store it was given, in every
branch, and the pure result `Engine.Score` is exactly its value part. -/
theorem score_does_not_mutate_store :
    ∀ (s : Store) (req : TransactionRequest) (now : Int),
      (Engine.ScoreSt s req now).2 = s ∧
      Engine.Score s req now = (Engine.ScoreSt s req now).1 := by
  intro s req now
  refine ⟨?_, rfl⟩
  unfold Engine.ScoreSt
  rcases Engine.checkLists s req now with _ | entry
  · rfl
  · dsimp only
    split_ifs <;> rfl

/-- C7: With no counterparty history in the 24h window the purchase-behaviour
rule emits exactly one factor, `first_transaction`, with delta 15 when the
amount exceeds the fixed threshold 50 and delta 5 otherwise; and the concrete
brand-new-counterparty scenario (amount 30, no adverse signals) yields
exactly one factor (`first_transaction`, 5), a score ≤ 30, and the approve
recommendation. -/
theorem first_transaction_behaviour :
    (∀ ctx : RuleContext, ctx.emailLast24h = [] →
      (rulePurchaseBehaviour ctx).map (fun f => (f.Name, f.ScoreDelta)) =
        [("first_transaction", if ctx.req.Amount > 50 then (15 : Int) else 5)]) ∧
    ((Engine.Score Store.New sampleReq 0).2.1.map (fun f => (f.Name, f.ScoreDelta)) =
        [("first_transaction", 5)] ∧
      (Engine.Score Store.New sampleReq 0).1 ≤ 30 ∧
      Recommend (Engine.Score Store.New sampleReq 0).1 = (ActionApprove, RiskLow)) := by
  constructor
  · intro ctx h
    unfold rulePurchaseBehaviour
    rw [if_pos (by rw [h]; rfl)]
    split_ifs <;> rfl
  · refine ⟨by decide, by decide, by decide⟩

/-- C7 witness: the empty-history hypothesis discharged at a concrete
context. -/
theorem first_transaction_behaviour_witness :
    (rulePurchaseBehaviour emptyHistCtx).map (fun f => (f.Name, f.ScoreDelta)) =
      [("first_transaction", if emptyHistCtx.req.Amount > 50 then (15 : Int) else 5)] :=
  first_transaction_behaviour.1 emptyHistCtx rfl

/-- C9: If the 24h counterparty history is non-empty but its mean amount is
not strictly positive, the purchase-behaviour rule emits no factor at all —
the division by the mean is guarded and `first_transaction` cannot fire —
regardless of the request's amount. -/
theorem purchase_rule_silent_on_nonpositive_mean :
    ∀ ctx : RuleContext, ctx.emailLast24h ≠ [] → avgAmount ctx.emailLast24h ≤ 0 →
      rulePurchaseBehaviour ctx = [] := by
  intro ctx h1 h2
  have hne : ctx.emailLast24h.isEmpty = false := by
    cases hc : ctx.emailLast24h with
    | nil => exact absurd hc h1
    | cons a l => rfl
  unfold rulePurchaseBehaviour
  rw [if_neg (by simp [hne])]
  rw [if_neg (not_lt.mpr h2)]

/-- C9 witness: a context whose single 24h record has amount 0 (mean 0) and
whose current amount is huge still produces no factor. -/
theorem purchase_rule_silent_witness :
    rulePurchaseBehaviour zeroAvgCtx = [] :=
  purchase_rule_silent_on_nonpositive_mean zeroAvgCtx (by decide)
    (by norm_num [avgAmount, zeroAvgCtx, zeroAmountTx, sampleTx, sampleReq, List.foldl])

/-- C10: An entry whose expiry equals the lookup time is treated
inconsistently: `Store.CheckBlocklist` still matches it (it skips only
entries expiring strictly before now) while `Store.ListBlocklistEntries`
omits it (it keeps only entries expiring strictly after now). -/
theorem blocklist_expiry_boundary :
    ∀ (e : BlocklistEntry) (now : Int), e.ExpiresAt = some now →
      Store.CheckBlocklist { Store.New with blocklist := [e] } e.EntityType e.Value now =
        some e ∧
      Store.ListBlocklistEntries { Store.New with blocklist := [e] } now = [] := by
  intro e now h
  have hexp : entryExpired e now = false := by
    unfold entryExpired
    rw [h]
    simp
  constructor
  · simp [Store.CheckBlocklist, checkBlocklistList, hexp]
  · simp [Store.ListBlocklistEntries, h]

/-- C10 witness: the boundary inconsistency at a concrete entry expiring at
time 1000, looked up at time 1000. -/
theorem blocklist_expiry_boundary_witness :
    Store.CheckBlocklist { Store.New with blocklist := [expiringEntry] }
      expiringEntry.EntityType expiringEntry.Value 1000 = some expiringEntry ∧
    Store.ListBlocklistEntries { Store.New with blocklist := [expiringEntry] } 1000 = [] :=
  blocklist_expiry_boundary expiringEntry 1000 rfl

/-- C2: The override check consults block/allow entries for email, IP, BIN,
and device in that priority order and the first hit wins; a block hit forces
score 100 with the single factor `blocklist_match` (delta 100), an allow hit
forces score 0 with the single factor `allowlist_match` (delta 0), no rule
runs in either case, and an entry whose expiry is strictly in the past is
skipped by the lookup exactly as if it were absent. -/
theorem override_check_semantics :
    ∀ (s : Store) (req : TransactionRequest) (now : Int),
      (∀ e, s.CheckBlocklist EntityEmail req.UserEmail now = some e →
        Engine.checkLists s req now = some e) ∧
      (s.CheckBlocklist EntityEmail req.UserEmail now = none →
        ∀ e, s.CheckBlocklist EntityIP req.IPAddress now = some e →
          Engine.checkLists s req now = some e) ∧
      (s.CheckBlocklist EntityEmail req.UserEmail now = none →
        s.CheckBlocklist EntityIP req.IPAddress now = none →
        ∀ e, s.CheckBlocklist EntityBIN req.CardBIN now = some e →
          Engine.checkLists s req now = some e) ∧
      (s.CheckBlocklist EntityEmail req.UserEmail now = none →
        s.CheckBlocklist EntityIP req.IPAddress now = none →
        s.CheckBlocklist EntityBIN req.CardBIN now = none →
          Engine.checkLists s req now =
            s.CheckBlocklist EntityDevice req.DeviceFingerprint now) ∧
      (∀ e, Engine.checkLists s req now = some e → e.ListType = ListBlock →
        (Engine.Score s req now).1 = 100 ∧
        (Engine.Score s req now).2.1.map (fun f => (f.Name, f.ScoreDelta)) =
          [("blocklist_match", 100)]) ∧
      (∀ e, Engine.checkLists s req now = some e → e.ListType = ListAllow →
        (Engine.Score s req now).1 = 0 ∧
        (Engine.Score s req now).2.1.map (fun f => (f.Name, f.ScoreDelta)) =
          [("allowlist_match", 0)]) ∧
      (∀ (t v : String) (e : BlocklistEntry) (lA lB : List BlocklistEntry),
        entryExpired e now = true →
        checkBlocklistList t v now (lA ++ e :: lB) = checkBlocklistList t v now (lA ++ lB)) := by
  intro s req now
  refine ⟨?_, ?_, ?_, ?_, ?_, ?_, ?_⟩
  · intro e h
    unfold Engine.checkLists
    rw [h]
  · intro h1 e h2
    unfold Engine.checkLists
    rw [h1, h2]
  · intro h1 h2 e h3
    unfold Engine.checkLists
    rw [h1, h2, h3]
  · intro h1 h2 h3
    unfold Engine.checkLists
    rw [h1, h2, h3]
  · intro e h hb
    unfold Engine.Score Engine.ScoreSt
    rw [h]
    dsimp only
    rw [if_pos hb]
    exact ⟨rfl, rfl⟩
  · intro e h hb
    unfold Engine.Score Engine.ScoreSt
    rw [h]
    dsimp only
    rw [if_neg (by rw [hb]; decide), if_pos hb]
    exact ⟨rfl, rfl⟩
  · intro t v e lA lB hexp
    induction lA with
    | nil =>
      show checkBlocklistList t v now (e :: lB) = checkBlocklistList t v now lB
      simp only [checkBlocklistList]
      rw [if_neg (by rintro ⟨-, -, hf⟩; rw [hexp] at hf; cases hf)]
    | cons a l ih =>
      show checkBlocklistList t v now (a :: (l ++ e :: lB)) =
        checkBlocklistList t v now (a :: (l ++ lB))
      simp only [checkBlocklistList]
      by_cases hc : a.EntityType = t ∧ a.Value = v ∧ entryExpired a now = false
      · rw [if_pos hc, if_pos hc]
      · rw [if_neg hc, if_neg hc]
        exact ih

/-- C2 witness: a block entry on the counterparty email forces score 100 and
the single `blocklist_match` factor. -/
theorem override_check_semantics_witness :
    (Engine.Score blockStore sampleReq 0).1 = 100 ∧
    (Engine.Score blockStore sampleReq 0).2.1.map (fun f => (f.Name, f.ScoreDelta)) =
      [("blocklist_match", 100)] := by
  obtain ⟨-, -, -, -, hblock, -, -⟩ := override_check_semantics blockStore sampleReq 0
  exact hblock blockEntry (by decide) (by decide)

/-- C3: A save whose identifier is already present always fails with the
duplicate-identifier error, and the returned store — primary table, all four
secondary indexes, and the per-origin distinct-BIN set — is exactly the
pre-call store, so the first record is never overwritten. -/
theorem duplicate_save_fails_and_preserves_store :
    ∀ (s : Store) (txA txB : Transaction), txA ∈ s.transactions →
      txB.TransactionID = txA.TransactionID →
      s.SaveTransaction txB = (s, some StoreError.ErrDuplicateTransaction) := by
  intro s txA txB hmem hid
  unfold Store.SaveTransaction
  split
  · rfl
  · rename_i hno
    exfalso
    apply hno
    rw [List.any_eq_true]
    exact ⟨txA, hmem, beq_iff_eq.mpr hid.symm⟩

/-- C3 witness: re-saving `sampleTx` into a store already holding it. -/
theorem duplicate_save_witness :
    sampleTx ∈ dupStore.transactions ∧
    dupStore.SaveTransaction sampleTx = (dupStore, some StoreError.ErrDuplicateTransaction) :=
  ⟨by decide,
   duplicate_save_fails_and_preserves_store dupStore sampleTx sampleTx (by decide) rfl⟩

/-- C8 counterexample: the claim "geo_ip_card_mismatch fires iff the origin
country differs from the card-issuing country" fails at a request whose
origin-country field is empty: the two fields differ, but the rule emits no
`geo_ip_card_mismatch` factor because the code also requires both (uppercased)
codes to be non-empty. -/
theorem geo_mismatch_claim_counterexample :
    geoNoCountryCtx.req.IPCountry ≠ geoNoCountryCtx.req.CardCountry ∧
    "geo_ip_card_mismatch" ∉ (ruleGeography geoNoCountryCtx).map (fun f => f.Name) :=
  ⟨by decide, by decide⟩

/-- C8 (amended): the geography rule produces `geo_ip_card_mismatch` with
delta 25 iff both the uppercased origin-country and uppercased card-country
codes are non-empty and differ. -/
theorem geo_ip_card_mismatch_iff :
    ∀ ctx : RuleContext,
      (∃ f ∈ ruleGeography ctx, f.Name = "geo_ip_card_mismatch" ∧ f.ScoreDelta = 25) ↔
      (strUpper ctx.req.IPCountry ≠ "" ∧ strUpper ctx.req.CardCountry ≠ "" ∧
        strUpper ctx.req.IPCountry ≠ strUpper ctx.req.CardCountry) := by
  intro ctx
  constructor
  · rintro ⟨f, hf, hname, -⟩
    unfold ruleGeography at hf
    simp only [List.mem_append] at hf
    rcases hf with ((h | h) | h) | h
    · by_cases hc : strUpper ctx.req.IPCountry ≠ "" ∧ strUpper ctx.req.CardCountry ≠ "" ∧
        strUpper ctx.req.IPCountry ≠ strUpper ctx.req.CardCountry
      · exact hc
      · rw [if_neg hc] at h
        exact absurd h (List.not_mem_nil f)
    · rw [mem_ite_singleton h] at hname
      simp at hname
    · rw [mem_ite_singleton h] at hname
      simp at hname
    · rw [mem_ite_singleton h] at hname
      simp at hname
  · intro hc
    have hm : RiskFactor.mk "geo_ip_card_mismatch"
        ("IP country (" ++ strUpper ctx.req.IPCountry ++
          ") does not match card issuing country (" ++ strUpper ctx.req.CardCountry ++ ")")
        25 ∈ ruleGeography ctx := by
      unfold ruleGeography
      exact List.mem_append_left _ (List.mem_append_left _ (List.mem_append_left _
        (by rw [if_pos hc]; exact List.mem_singleton.mpr rfl)))
    exact ⟨_, hm, rfl, rfl⟩

/-- C4: after any sequence of store operations from the empty store, every
stored transaction's identifier appears in the secondary indexes keyed by
its counterparty email, origin IP, device fingerprint, and card BIN, its
BIN belongs to that origin's distinct-card-prefix set, and conversely every
identifier held in any index resolves to a record in the primary table. -/
theorem store_index_consistency :
    ∀ ops : List StoreOp,
      (∀ tx ∈ (applyOps ops Store.New).transactions, txIndexed (applyOps ops Store.New) tx) ∧
      (∀ v id, id ∈ (applyOps ops Store.New).txByEmail v →
        ∃ tx, tx ∈ (applyOps ops Store.New).transactions ∧ tx.TransactionID = id) ∧
      (∀ v id, id ∈ (applyOps ops Store.New).txByIP v →
        ∃ tx, tx ∈ (applyOps ops Store.New).transactions ∧ tx.TransactionID = id) ∧
      (∀ v id, id ∈ (applyOps ops Store.New).txByDevice v →
        ∃ tx, tx ∈ (applyOps ops Store.New).transactions ∧ tx.TransactionID = id) ∧
      (∀ v id, id ∈ (applyOps ops Store.New).txByBIN v →
        ∃ tx, tx ∈ (applyOps ops Store.New).transactions ∧ tx.TransactionID = id) := by
  intro ops
  have inv := storeInv_applyOps ops Store.New storeInv_new
  refine ⟨?_, ?_, ?_, ?_, ?_⟩
  · intro tx ht
    exact ⟨inv.indexedEmail tx ht, inv.indexedIP tx ht, inv.indexedDevice tx ht,
      inv.indexedBIN tx ht, inv.indexedCard tx ht⟩
  · intro v id h
    obtain ⟨tx, h1, h2, -⟩ := inv.soundEmail v id h
    exact ⟨tx, h1, h2⟩
  · intro v id h
    obtain ⟨tx, h1, h2, -⟩ := inv.soundIP v id h
    exact ⟨tx, h1, h2⟩
  · intro v id h
    obtain ⟨tx, h1, h2, -⟩ := inv.soundDevice v id h
    exact ⟨tx, h1, h2⟩
  · intro v id h
    obtain ⟨tx, h1, h2, -⟩ := inv.soundBIN v id h
    exact ⟨tx, h1, h2⟩

/-- C4 witness: after saving `sampleTx` into the empty store it is indexed
everywhere it should be. -/
theorem store_index_consistency_witness :
    txIndexed (applyOps sampleOps Store.New) sampleTx :=
  (store_index_consistency sampleOps).1 sampleTx (by decide)

/-- C6: against any reachable store, each per-entity query returns exactly
the subset of `GetAllTransactions since` whose entity field matches the
value and whose timestamp is at or after `since` (records at exactly
`since` included), and re-running either query on the unmodified store
yields the same result. -/
theorem query_by_entity_exact :
    ∀ (ops : List StoreOp) (value : String) (since : Int) (tx : Transaction),
      (tx ∈ (applyOps ops Store.New).GetTransactionsByEmail value since ↔
        tx ∈ (applyOps ops Store.New).GetAllTransactions since ∧
          tx.UserEmail = value ∧ since ≤ tx.Timestamp) ∧
      (tx ∈ (applyOps ops Store.New).GetTransactionsByIP value since ↔
        tx ∈ (applyOps ops Store.New).GetAllTransactions since ∧
          tx.IPAddress = value ∧ since ≤ tx.Timestamp) ∧
      (tx ∈ (applyOps ops Store.New).GetTransactionsByDevice value since ↔
        tx ∈ (applyOps ops Store.New).GetAllTransactions since ∧
          tx.DeviceFingerprint = value ∧ since ≤ tx.Timestamp) ∧
      (tx ∈ (applyOps ops Store.New).GetTransactionsByBIN value since ↔
        tx ∈ (applyOps ops Store.New).GetAllTransactions since ∧
          tx.CardBIN = value ∧ since ≤ tx.Timestamp) ∧
      ((applyOps ops Store.New).GetTransactionsByEmail value since =
        (applyOps ops Store.New).GetTransactionsByEmail value since ∧
       (applyOps ops Store.New).GetAllTransactions since =
        (applyOps ops Store.New).GetAllTransactions since) := by
  intro ops value since tx
  have inv := storeInv_applyOps ops Store.New storeInv_new
  refine ⟨?_, ?_, ?_, ?_, rfl, rfl⟩
  · exact mem_query_iff inv _ (fun t => t.UserEmail) inv.indexedEmail inv.soundEmail
      value since tx
  · exact mem_query_iff inv _ (fun t => t.IPAddress) inv.indexedIP inv.soundIP
      value since tx
  · exact mem_query_iff inv _ (fun t => t.DeviceFingerprint) inv.indexedDevice inv.soundDevice
      value since tx
  · exact mem_query_iff inv _ (fun t => t.CardBIN) inv.indexedBIN inv.soundBIN
      value since tx
